import Mathlib

/-
Verification development for the SAML2 entity message-lifecycle engine
(saml2/entity.py): message building, binding selection, binding encode and
decode, and the inbound parse/verify entry points.

The Python module is shallowly embedded: pure control flow becomes Lean
functions, a Python exception escaping a call is `Except.error`, a Python
`return None` is `Except.ok none`, and the external collaborators the module
merely calls (base64, zlib inflate, the XML message classes with their
`loads`/`verify`, the SOAP parser, the metadata store) are explicit function
parameters gathered in collaborator structures, so every theorem quantifies
over their behaviour.
-/

namespace PySaml2

/-- A Python exception escaping a call, identified by its message. -/
structure PyErr where
  msg : String
deriving DecidableEq, Repr

/-- Python truthiness of a string: a string is truthy iff it is nonempty. -/
def pyTruthy (s : String) : Bool := !(s == "")

/-- Modelled from the spec: wire constant (§6), the fixed URN identifying the
HTTP-POST binding (defined in the saml2 package root, not in this module). -/
def BINDING_HTTP_POST : String := "urn:oasis:names:tc:SAML:2.0:bindings:HTTP-POST"

/-- Modelled from the spec: wire constant (§6), the fixed URN identifying the
HTTP-Redirect binding. -/
def BINDING_HTTP_REDIRECT : String := "urn:oasis:names:tc:SAML:2.0:bindings:HTTP-Redirect"

/-- Modelled from the spec: wire constant (§6), the fixed URN identifying the
SOAP binding. -/
def BINDING_SOAP : String := "urn:oasis:names:tc:SAML:2.0:bindings:SOAP"

/-- Modelled from the spec: the fixed protocol version string shared by all
messages produced by one engine version (§6). -/
def VERSION : String := "2.0"

/-- Modelled from the spec: the "entity" name-id format URN used for every
Issuer the engine builds (§3, Issuer defaults to the entity format). -/
def NAMEID_FORMAT_ENTITY : String := "urn:oasis:names:tc:SAML:2.0:nameid-format:entity"

/-- Modelled from the spec: the fixed well-known success status code returned
by s_utils.success_status_factory (§6, status vocabulary). -/
def success_status_factory : String := "urn:oasis:names:tc:SAML:2.0:status:Success"

/-- The slice of the entity configuration the module reads: the entity id, the
endpoint table (service, binding, optional context → addresses) and the
accepted clock-skew attribute.  `acceptedTimeDiff = none` models the attribute
being absent (reading it raises AttributeError); `some none` models it being
set to Python `None`; `some (some n)` an integer value. -/
structure Config where
  entityid : String
  endpoint : String → String → Option String → List String
  acceptedTimeDiff : Option (Option Int)

/-- Modelled from the spec: s_utils.sid(seed="") — a message identifier
generated from the given seed plus a fresh random draw (§4.1); the draw is
abstracted as a natural number and the token encodes seed and draw. -/
def sid (seed : String) (entropy : Nat) : String :=
  seed ++ "id-" ++ String.mk (List.replicate entropy 'r')

/-- Modelled from the spec: mdstore.destinations — the metadata collaborator
already yields an ordered list of endpoint URLs (§6 lookup_endpoints), so
extracting the destinations is the identity on that list. -/
def destinations (srvs : List String) : List String := srvs

/-- External collaborators of `_parse_response`: the base64 decoder, the raw
inflate step, the response-class constructor `request_cls(self.sec, **kwargs)`
(receiving the resolved `return_addr` keyword), and the parsed object's
`loads` and `verify` methods.  Parsed message objects are abstracted as
strings; `Except.error` models the collaborator raising. -/
structure RespCollab where
  b64decode : String → Except PyErr String
  inflate : String → Except PyErr String
  mkResponse : Option String → Except PyErr String
  loads : String → String → Except PyErr (Option String)
  verify : String → Except PyErr (Option String)

/-- Modelled from the spec: s_utils.decode_base64_and_inflate — base64-decode
the payload, then inflate it (raw deflate, §4.3); either step may raise. -/
def decode_base64_and_inflate (c : RespCollab) (s : String) : Except PyErr String :=
  match c.b64decode s with
  | Except.error e => Except.error e
  | Except.ok t => c.inflate t

/-- The binding dispatch of `_parse_response` lines 388–397: HTTP-Redirect is
base64-decoded and inflated, HTTP-POST is base64-decoded, SOAP (its envelope
already stripped) and anything else passes through unchanged. -/
def decodeStep (c : RespCollab) (binding xmlstr : String) : Except PyErr String :=
  if binding == BINDING_HTTP_REDIRECT then decode_base64_and_inflate c xmlstr
  else if binding == BINDING_HTTP_POST then c.b64decode xmlstr
  else Except.ok xmlstr

/-- Shallow embedding of `Entity._parse_response` (entity.py lines 360–411).
`returnAddrKw` is the `return_addr` entry of `**kwargs` when the caller
supplied one.  The guard on line 373 is transcribed as written in the source:
`binding == BINDING_HTTP_REDIRECT or BINDING_HTTP_POST`, whose right operand
is the truthiness of the constant POST URN.  The `try/except` around the
endpoint lookup (an empty endpoint list makes `[0]` raise IndexError) and the
one around the constructor return `None`; the decode, `loads` and `verify`
steps are not guarded, so their exceptions escape. -/
def _parse_response (c : RespCollab) (cfg : Config) (service binding : String)
    (returnAddrKw : Option String) (xmlstr : String) : Except PyErr (Option String) :=
  if pyTruthy xmlstr then
    let kw : Except Unit (Option String) :=
      match returnAddrKw with
      | some a => Except.ok (some a)
      | none =>
        if binding == BINDING_HTTP_REDIRECT || pyTruthy BINDING_HTTP_POST then
          match cfg.endpoint service binding none with
          | [] => Except.error ()
          | a :: _ => Except.ok (some a)
        else Except.ok none
    match kw with
    | Except.error _ => Except.ok none
    | Except.ok ra =>
      match c.mkResponse ra with
      | Except.error _ => Except.ok none
      | Except.ok respObj =>
        match decodeStep c binding xmlstr with
        | Except.error e => Except.error e
        | Except.ok decoded =>
          match c.loads respObj decoded with
          | Except.error e => Except.error e
          | Except.ok none => Except.ok none
          | Except.ok (some r) =>
            match c.verify r with
            | Except.error e => Except.error e
            | Except.ok none => Except.ok none
            | Except.ok (some r2) => Except.ok (some r2)
  else Except.ok none

/-- Shallow embedding of `Entity.parse_logout_request_response`
(entity.py lines 415–417): `_parse_response` on the single_logout_service
with no extra keyword arguments. -/
def parse_logout_request_response (c : RespCollab) (cfg : Config)
    (binding : String) (xmlstr : String) : Except PyErr (Option String) :=
  _parse_response c cfg "single_logout_service" binding none xmlstr

/-- The time-slack computation of `_parse_request` lines 271–276: the
configured accepted_time_diff, with an absent attribute (AttributeError) or a
falsy value replaced by zero. -/
def timeslackOf (cfg : Config) : Int :=
  match cfg.acceptedTimeDiff with
  | none => 0
  | some none => 0
  | some (some n) => if n == 0 then 0 else n

/-- External collaborators of `_parse_request`: the SOAP parser selected by
name via getattr, the request-class constructor (receiving the receiver
addresses and the time slack), and the request object's `loads` and `verify`
methods. -/
structure ReqCollab where
  soapParse : String → String → Except PyErr String
  mkRequest : List String → Int → Except PyErr String
  loads : String → String → String → Except PyErr (Option String)
  verify : String → Except PyErr (Option String)

/-- Shallow embedding of `Entity._parse_request` (entity.py lines 252–298).
Nothing but the AttributeError of the time-slack read is caught, so any
exception of the constructor, the SOAP parser, `loads` or `verify` escapes;
a `loads` or `verify` that yields no message makes the function return None. -/
def _parse_request (c : ReqCollab) (cfg : Config) (entityType : String)
    (service binding reqname : String) (xmlstr : String) : Except PyErr (Option String) :=
  let receiverAddresses := cfg.endpoint service binding (some entityType)
  match c.mkRequest receiverAddresses (timeslackOf cfg) with
  | Except.error e => Except.error e
  | Except.ok reqObj =>
    let x2 : Except PyErr String :=
      if binding == BINDING_SOAP then c.soapParse reqname xmlstr else Except.ok xmlstr
    match x2 with
    | Except.error e => Except.error e
    | Except.ok x =>
      match c.loads reqObj x binding with
      | Except.error e => Except.error e
      | Except.ok none => Except.ok none
      | Except.ok (some r) =>
        match c.verify r with
        | Except.error e => Except.error e
        | Except.ok none => Except.ok none
        | Except.ok (some r2) => Except.ok (some r2)

/-- Shallow embedding of `Entity.parse_logout_request` (entity.py lines
421–433): `_parse_request` for LogoutRequest on the single_logout_service. -/
def parse_logout_request (c : ReqCollab) (cfg : Config) (entityType : String)
    (binding : String) (xmlstr : String) : Except PyErr (Option String) :=
  _parse_request c cfg entityType "single_logout_service" binding "logout_request" xmlstr

/-- The request variants `response_args` dispatches on (entity.py lines
122–140), each carrying the envelope fields the module reads: the message id
and the issuer text. -/
inductive ReqVariant where
  | authn (issuerText : String) (id : String)
  | logout (issuerText : String) (id : String)
  | attrQuery (issuerText : String) (id : String)
deriving DecidableEq, Repr

/-- The id of the envelope carried by a request variant. -/
def ReqVariant.msgId : ReqVariant → String
  | .authn _ i => i
  | .logout _ i => i
  | .attrQuery _ i => i

/-- The issuer text of the envelope carried by a request variant. -/
def ReqVariant.issuerText : ReqVariant → String
  | .authn t _ => t
  | .logout t _ => t
  | .attrQuery t _ => t

/-- The exception `pick_binding` raises when no candidate binding is
advertised (entity.py line 120). -/
def pickErr : PyErr := ⟨"Unkown entity or unsupported bindings"⟩

/-- The loop of `pick_binding` (entity.py lines 109–120): for each binding in
the caller-supplied order, look the (entity, binding, descriptor-type) up in
the metadata service function; on the first nonempty service list return that
binding with the first destination; when the list is exhausted, raise. -/
def pick_loop (md : String → String → String → String → List String)
    (service eid descrType : String) : List String → Except PyErr (String × String)
  | [] => Except.error pickErr
  | b :: rest =>
    match md service eid b descrType with
    | [] => pick_loop md service eid descrType rest
    | d :: ds => Except.ok (b, List.headD (destinations (d :: ds)) "")

/-- Shallow embedding of `Entity.pick_binding` (entity.py lines 103–120).
`md` is the metadata store: its first argument is the service name selected by
getattr.  When a request is given and the entity id is falsy, the entity id is
taken from the request's issuer text, stripped. -/
def pick_binding (md : String → String → String → String → List String)
    (bindings : List String) (service descrType : String)
    (request : Option ReqVariant) (entityId : String) : Except PyErr (String × String) :=
  let eid := match request with
    | some r => if pyTruthy entityId then entityId else r.issuerText.trim
    | none => entityId
  pick_loop md service eid descrType bindings

/-- The info dictionary assembled by `response_args`. -/
structure RespArgs where
  inResponseTo : String
  destination : String
  spEntityId : Option String
deriving DecidableEq, Repr

/-- Shallow embedding of `Entity.response_args` (entity.py lines 122–140):
record the request id, map the request variant to the peer service role to
answer on, pick a binding and destination from the peer metadata, and return
the assembled keyword arguments (the selected binding itself is dropped; the
authn branch also records the request's name-id policy, which no claim
touches and which is not modelled). -/
def response_args (md : String → String → String → String → List String)
    (message : ReqVariant) (bindings : List String) (descrType : String) :
    Except PyErr RespArgs :=
  let rsrv := match message with
    | .authn _ _ => "assertion_consumer_service"
    | .logout _ _ => "single_logout_service"
    | .attrQuery _ _ => "attribute_consuming_service"
  let spe : Option String := match message with
    | .authn t _ => some t
    | _ => none
  match pick_binding md bindings rsrv descrType (some message) "" with
  | Except.error e => Except.error e
  | Except.ok (_, destination) =>
    Except.ok { inResponseTo := message.msgId, destination := destination, spEntityId := spe }

/-- An Issuer value: text plus name-id format (saml.Issuer as this module
builds it). -/
structure IssuerV where
  text : String
  format : String
deriving DecidableEq, Repr

/-- Shallow embedding of `Entity._issuer` (entity.py lines 71–80): an explicit
entity id (or a pre-built Issuer, collapsed here to its text) wins, otherwise
the configured entity id, always with the entity name-id format. -/
def _issuer (cfg : Config) (entityid : Option String) : IssuerV :=
  match entityid with
  | some e => { text := e, format := NAMEID_FORMAT_ENTITY }
  | none => { text := cfg.entityid, format := NAMEID_FORMAT_ENTITY }

/-- Modelled from the spec: sigver.pre_signature_part — a signature
placeholder binding to the message id (§4.1, sign=true attaches a placeholder
that binds to the message id). -/
def pre_signature_part (mid : String) : String := "signature-over-" ++ mid

/-- The common request envelope `_message` builds (entity.py lines 143–180),
with the keyword arguments used by the logout path. -/
structure ReqMsg where
  id : String
  version : String
  issueInstant : String
  issuer : IssuerV
  destination : Option String
  consent : Option String
  extensions : Option String
  nameId : Option String
  reason : Option String
  notOnOrAfter : Option String
  signature : Option String
deriving DecidableEq, Repr

/-- A Python truthiness guard on an optional string: `None` and the empty
string are falsy, so the field stays unset for them. -/
def truthyOpt (o : Option String) : Option String :=
  match o with
  | some s => if pyTruthy s then some s else none
  | none => none

/-- Shallow embedding of `Entity._message` (entity.py lines 143–180): a falsy
`id` is replaced by `sid(self.seed)`; destination, consent and extensions are
set only when truthy; `sign` attaches the signature placeholder over the
message id (the signing collaborator then resolves it in place).  `entropy` is
the random draw consumed by the id generator and `now` the current instant. -/
def _message (cfg : Config) (seed : String) (entropy : Nat) (now : String)
    (destination : Option String) (id : Option String)
    (consent : Option String) (extensions : Option String) (sign : Bool)
    (nameId : Option String) (reason : Option String) (notOnOrAfter : Option String) :
    ReqMsg :=
  let idv := match id with
    | none => sid seed entropy
    | some s => if pyTruthy s then s else sid seed entropy
  let req : ReqMsg :=
    { id := idv, version := VERSION, issueInstant := now, issuer := _issuer cfg none
      destination := truthyOpt destination, consent := truthyOpt consent
      extensions := truthyOpt extensions
      nameId := nameId, reason := reason, notOnOrAfter := notOnOrAfter
      signature := none }
  if sign then { req with signature := some (pre_signature_part idv) } else req

/-- The StatusResponse envelope `_status_response` builds (entity.py lines
221–248), with the keyword arguments the logout path passes through. -/
structure StatusMsg where
  issuer : Option String
  id : String
  version : String
  issueInstant : String
  status : String
  inResponseTo : String
  destination : Option String
  spEntityId : Option String
  signature : Option String
deriving DecidableEq, Repr

/-- Shallow embedding of `Entity._status_response` (entity.py lines 221–248).
The method has `self.seed` available but generates the message id with a bare
`sid()` (line 234), i.e. with the generator's default empty seed; a missing
status defaults to the success status; `sign` attaches the signature
placeholder over the generated id and resolves it via the signing
collaborator, modelled as the placeholder string itself. -/
def _status_response (seed : String) (entropy : Nat) (now : String)
    (issuer : Option String) (status : Option String) (sign : Bool)
    (kwargs : RespArgs) : StatusMsg :=
  let mid := sid "" entropy
  let status2 := match status with
    | none => success_status_factory
    | some s => s
  let response : StatusMsg :=
    { issuer := issuer, id := mid, version := VERSION, issueInstant := now
      status := status2, inResponseTo := kwargs.inResponseTo
      destination := some kwargs.destination, spEntityId := kwargs.spEntityId
      signature := none }
  if sign then { response with signature := some (pre_signature_part mid) } else response

/-- Shallow embedding of `Entity.create_logout_response` (entity.py lines
339–356): resolve the response keyword arguments for the spsso descriptor,
then build the status response — with the literal `sign=False` of line 352,
whatever `sign` the caller passed. -/
def create_logout_response (md : String → String → String → String → List String)
    (seed : String) (entropy : Nat) (now : String) (request : ReqVariant)
    (bindings : List String) (status : Option String) (sign : Bool)
    (issuer : Option String) : Except PyErr StatusMsg :=
  match response_args md request bindings "spsso" with
  | Except.error e => Except.error e
  | Except.ok rinfo => Except.ok (_status_response seed entropy now issuer status false rinfo)

/-- An HTML auto-submitting form payload as produced for the HTTP-POST
binding: the form targets `action` with HTTP method `httpMethod`, carries the
message under the field named by the parameter type, and the relay state when
present. -/
structure FormPayload where
  action : String
  httpMethod : String
  fieldName : String
  fieldValue : String
  relayState : Option String
deriving DecidableEq, Repr

/-- External encoders `apply_binding` delegates to: the base64 encoder for the
POST form, the deflate-then-base64-then-urlencode chain for the redirect URL,
and the SOAP envelope writer. -/
structure EncCollab where
  b64encode : String → String
  deflateB64UrlEncode : String → String
  soapEnvelope : String → String → String

/-- Modelled from the spec: HTTPBase.use_http_form_post (httpbase, not in this
module) — produce an HTML auto-submitting form payload containing the
base64-encoded message and, if present, the relay state, targeting the
destination via POST (§4.3). -/
def use_http_form_post (enc : EncCollab) (message destination relayState typ : String) :
    FormPayload :=
  { action := destination, httpMethod := "POST", fieldName := typ
    fieldValue := enc.b64encode message
    relayState := if pyTruthy relayState then some relayState else none }

/-- Modelled from the spec: HTTPBase.use_http_get — the destination plus query
parameters: the deflated, base64- and percent-encoded message under the
parameter name, plus the relay state if present (§4.3). -/
def use_http_get (enc : EncCollab) (message destination relayState typ : String) : String :=
  destination ++ "?" ++ typ ++ "=" ++ enc.deflateB64UrlEncode message ++
    (if pyTruthy relayState then "&RelayState=" ++ relayState else "")

/-- The transport payload of one encoded message. -/
inductive TransportPayload where
  | form : FormPayload → TransportPayload
  | redirectUrl : String → TransportPayload
  | soapMessage : String → TransportPayload
deriving DecidableEq, Repr

/-- The info dictionary `apply_binding` returns: the payload plus the url and
method keys the method sets afterwards. -/
structure BindingInfo where
  payload : TransportPayload
  url : Option String
  method : Option String
deriving DecidableEq, Repr

/-- Shallow embedding of `Entity.apply_binding` (entity.py lines 82–101):
POST builds the auto-submitting form, REDIRECT the encoded GET URL, SOAP the
envelope; POST and REDIRECT then get `url = destination` and
`method = "GET"` set on the info dictionary; an unknown binding raises. -/
def apply_binding (enc : EncCollab) (binding req_str destination relay_state typ : String) :
    Except PyErr BindingInfo :=
  if binding == BINDING_HTTP_POST then
    Except.ok { payload := .form (use_http_form_post enc req_str destination relay_state typ)
                url := some destination, method := some "GET" }
  else if binding == BINDING_HTTP_REDIRECT then
    Except.ok { payload := .redirectUrl (use_http_get enc req_str destination relay_state typ)
                url := some destination, method := some "GET" }
  else if binding == BINDING_SOAP then
    Except.ok { payload := .soapMessage (enc.soapEnvelope req_str destination)
                url := none, method := none }
  else Except.error ⟨"Unknown binding type: " ++ binding⟩

/-- A response-side collaborator set that never raises: a collaborator is
non-raising when each of its operations returns `Except.ok` on every input. -/
def respNoRaise (c : RespCollab) : Prop :=
  (∀ s, ∃ v, c.b64decode s = Except.ok v) ∧
  (∀ s, ∃ v, c.inflate s = Except.ok v) ∧
  (∀ ra, ∃ v, c.mkResponse ra = Except.ok v) ∧
  (∀ o x, ∃ v, c.loads o x = Except.ok v) ∧
  (∀ r, ∃ v, c.verify r = Except.ok v)

/-- A request-side collaborator set that never raises. -/
def reqNoRaise (c : ReqCollab) : Prop :=
  (∀ n x, ∃ v, c.soapParse n x = Except.ok v) ∧
  (∀ addrs ts, ∃ v, c.mkRequest addrs ts = Except.ok v) ∧
  (∀ o x b, ∃ v, c.loads o x b = Except.ok v) ∧
  (∀ r, ∃ v, c.verify r = Except.ok v)

/-- A benign response collaborator set: every step succeeds and the message
object records what flowed into it. -/
def okCollab : RespCollab :=
  { b64decode := fun s => Except.ok s
    inflate := fun s => Except.ok s
    mkResponse := fun ra => Except.ok (match ra with
      | some a => "return-addr=" ++ a
      | none => "return-addr-missing")
    loads := fun obj x => Except.ok (some (obj ++ "|" ++ x))
    verify := fun r => Except.ok (some r) }

/-- A response collaborator set whose `verify` rejects every message
(returns Python `None`) while no step raises. -/
def verifyRejectsCollab : RespCollab :=
  { b64decode := fun s => Except.ok s
    inflate := fun s => Except.ok s
    mkResponse := fun _ => Except.ok "resp-obj"
    loads := fun _ _ => Except.ok (some "parsed-msg")
    verify := fun _ => Except.ok none }

/-- A response collaborator set whose base64 decoder raises on every input,
as the binascii module does on a payload that is not valid base64. -/
def badB64Collab : RespCollab :=
  { b64decode := fun _ => Except.error ⟨"binascii Error: Invalid base64-encoded string"⟩
    inflate := fun s => Except.ok s
    mkResponse := fun _ => Except.ok "resp-obj"
    loads := fun _ _ => Except.ok (some "parsed-msg")
    verify := fun r => Except.ok (some r) }

/-- A request collaborator set whose constructor raises with a message
recording the time slack it was handed. -/
def observeTimeslackCollab : ReqCollab :=
  { soapParse := fun _ x => Except.ok x
    mkRequest := fun _ ts => Except.error ⟨"timeslack=" ++ toString ts⟩
    loads := fun _ _ _ => Except.ok none
    verify := fun _ => Except.ok none }

/-- A benign request collaborator set: every step succeeds. -/
def okReqCollab : ReqCollab :=
  { soapParse := fun _ x => Except.ok x
    mkRequest := fun _ _ => Except.ok "req-obj"
    loads := fun obj x _ => Except.ok (some (obj ++ "|" ++ x))
    verify := fun r => Except.ok (some r) }

/-- A configuration advertising one single-logout endpoint of this entity for
every binding, with no accepted_time_diff attribute. -/
def cfgSlo : Config :=
  { entityid := "https://me.example/entity"
    endpoint := fun service _ _ =>
      if service == "single_logout_service" then ["https://me.example/slo"] else []
    acceptedTimeDiff := none }

/-- A configuration with an empty endpoint table. -/
def cfgNoEndpoints : Config :=
  { entityid := "https://me.example/entity"
    endpoint := fun _ _ _ => []
    acceptedTimeDiff := none }

/-- Peer metadata advertising both the POST and the Redirect single-logout
endpoints. -/
def mdBoth : String → String → String → String → List String :=
  fun _ _ binding _ =>
    if binding == BINDING_HTTP_POST then ["https://peer.example/slo-post"]
    else if binding == BINDING_HTTP_REDIRECT then ["https://peer.example/slo-redirect"]
    else []

/-- Peer metadata advertising only the POST single-logout endpoint. -/
def mdPostOnly : String → String → String → String → List String :=
  fun _ _ binding _ =>
    if binding == BINDING_HTTP_POST then ["https://peer.example/slo-post"] else []

/-- Peer metadata advertising nothing at all. -/
def mdNone : String → String → String → String → List String :=
  fun _ _ _ _ => []

/-- A sample logout request from the peer. -/
def logoutReq : ReqVariant := .logout "https://peer.example/entity" "request-42"

/-- Sample response keyword arguments. -/
def rinfo1 : RespArgs :=
  { inResponseTo := "request-42", destination := "https://peer.example/slo-post"
    spEntityId := none }

deriving instance DecidableEq for Except

/-- The POST binding URN is a nonempty and hence truthy string. -/
theorem post_truthy : pyTruthy BINDING_HTTP_POST = true := by decide

/-- The right operand of the line-373 guard is the constant POST binding URN,
which is a nonempty string; Python's `or` therefore makes the whole guard
true for every binding. -/
theorem or_post_truthy (binding : String) :
    (binding == BINDING_HTTP_REDIRECT || pyTruthy BINDING_HTTP_POST) = true := by
  rw [post_truthy, Bool.or_true]

/-- C10: for every binding, every collaborator behaviour (even one whose every
operation raises) and every configuration, `_parse_response` — and hence
`parse_logout_request_response` — returns None on an empty (falsy) payload,
so nothing is decoded, no configuration is consulted and no verification
runs. -/
theorem parse_response_empty_payload_none (c : RespCollab) (cfg : Config)
    (service binding : String) (ra : Option String) :
    _parse_response c cfg service binding ra "" = Except.ok none ∧
    parse_logout_request_response c cfg binding "" = Except.ok none :=
  ⟨rfl, rfl⟩

/-- C4: the decode step of `_parse_response` is exactly: base64-decode then
inflate for HTTP-Redirect, base64-decode alone for HTTP-POST, and the
unchanged payload for SOAP. -/
theorem parse_response_decode_step_by_binding (c : RespCollab) (s : String) :
    decodeStep c BINDING_HTTP_REDIRECT s =
      (match c.b64decode s with
       | Except.error e => Except.error e
       | Except.ok t => c.inflate t) ∧
    decodeStep c BINDING_HTTP_POST s = c.b64decode s ∧
    decodeStep c BINDING_SOAP s = Except.ok s :=
  ⟨rfl, rfl, rfl⟩

/-- C6: for every message encoded with the HTTP-POST binding, `apply_binding`
produces the auto-submitting form payload: it targets the destination via the
POST method, carries the base64-encoded message under the given parameter
name, and the relay state exactly when one is present. -/
theorem apply_binding_http_post_form (enc : EncCollab) (msg dest relay typ : String) :
    apply_binding enc BINDING_HTTP_POST msg dest relay typ =
      Except.ok { payload := TransportPayload.form
                    { action := dest, httpMethod := "POST", fieldName := typ
                      fieldValue := enc.b64encode msg
                      relayState := if pyTruthy relay then some relay else none }
                  url := some dest, method := some "GET" } :=
  rfl

/-- C8: when the configured accepted time difference is absent
(AttributeError), set to None, or zero, the freshness time slack is exactly
zero; and `_parse_request` hands exactly this computed slack to the request
constructor, as observed by a constructor that raises with the value it
received. -/
theorem timeslack_zero_when_unset :
    (∀ cfg : Config,
        cfg.acceptedTimeDiff = none ∨ cfg.acceptedTimeDiff = some none ∨
          cfg.acceptedTimeDiff = some (some 0) →
        timeslackOf cfg = 0) ∧
    (∀ (cfg : Config) (entityType service binding reqname xmlstr : String),
        _parse_request observeTimeslackCollab cfg entityType service binding reqname xmlstr =
          Except.error ⟨"timeslack=" ++ toString (timeslackOf cfg)⟩) := by
  constructor
  · intro cfg h
    rcases h with h | h | h
    · unfold timeslackOf; rw [h]
    · unfold timeslackOf; rw [h]
    · unfold timeslackOf; rw [h]; rfl
  · intro cfg et s b rq x
    rfl

/-- Witness for the time-slack theorem at the concrete configuration whose
accepted_time_diff attribute is absent. -/
theorem timeslack_zero_when_unset_witness : timeslackOf cfgSlo = 0 :=
  timeslack_zero_when_unset.1 cfgSlo (Or.inl rfl)

/-- C9: the `sign` argument of `create_logout_response` has no effect — the
call builds the status response with signing disabled (the literal
`sign=False` of line 352), so a successfully created LogoutResponse never
carries a signature, whatever the caller requested. -/
theorem create_logout_response_ignores_sign :
    (∀ md seed entropy now request bindings status sign issuer,
        create_logout_response md seed entropy now request bindings status sign issuer =
          create_logout_response md seed entropy now request bindings status false issuer) ∧
    (∀ md seed entropy now request bindings status sign issuer r,
        create_logout_response md seed entropy now request bindings status sign issuer =
          Except.ok r →
        r.signature = none) := by
  constructor
  · intro _ _ _ _ _ _ _ _ _
    rfl
  · intro md seed entropy now request bindings status sign issuer r h
    unfold create_logout_response at h
    cases hra : response_args md request bindings "spsso" with
    | error e => rw [hra] at h; exact absurd h (by simp)
    | ok rinfo =>
      rw [hra] at h
      injection h with h2
      rw [← h2]
      rfl

/-- Witness: a logout response created with sign=true for the sample peer
carries no signature, by the C9 theorem. -/
theorem create_logout_response_ignores_sign_witness :
    (_status_response "seed-w" 3 "2026-02-03T04:05:06Z" none none false rinfo1).signature =
      none :=
  create_logout_response_ignores_sign.2 mdPostOnly "seed-w" 3 "2026-02-03T04:05:06Z"
    logoutReq [BINDING_HTTP_POST] none true none _ rfl

/-- C5 evaluation at the failing input: with the SOAP binding and no
return_addr keyword, the line-373 guard — written
`binding == BINDING_HTTP_REDIRECT or BINDING_HTTP_POST`, whose right operand
is a truthy constant — still holds, so the expected return address IS derived
from this entity's configured endpoint and handed to the response
constructor; and with no endpoint configured, the SOAP call even aborts to
None in that same branch. -/
theorem soap_return_addr_derived_bug :
    _parse_response okCollab cfgSlo "single_logout_service" BINDING_SOAP none "<samlp/>" =
      Except.ok (some "return-addr=https://me.example/slo|<samlp/>") ∧
    _parse_response okCollab cfgNoEndpoints "single_logout_service" BINDING_SOAP none
        "<samlp/>" =
      Except.ok none :=
  ⟨rfl, rfl⟩

/-- The loop of `pick_binding` succeeds with (b, d) exactly when b is the
first candidate binding the metadata advertises, every earlier candidate
being unadvertised, and d is the first advertised destination for b. -/
theorem pick_loop_ok_iff (md : String → String → String → String → List String)
    (service eid descrType b d : String) (bs : List String) :
    pick_loop md service eid descrType bs = Except.ok (b, d) ↔
      ∃ pre post, bs = pre ++ b :: post ∧
        (∀ x ∈ pre, md service eid x descrType = []) ∧
        ∃ ds, md service eid b descrType = d :: ds := by
  induction bs with
  | nil =>
    constructor
    · intro h
      exact absurd h (by simp [pick_loop, pickErr])
    · rintro ⟨pre, post, hb, -, -⟩
      cases pre <;> simp at hb
  | cons x rest ih =>
    cases hm : md service eid x descrType with
    | nil =>
      have hstep : pick_loop md service eid descrType (x :: rest) =
          pick_loop md service eid descrType rest := by
        simp only [pick_loop, hm]
      rw [hstep, ih]
      constructor
      · rintro ⟨pre, post, hb, hpre, ds, hmd⟩
        refine ⟨x :: pre, post, by rw [hb]; rfl, ?_, ds, hmd⟩
        intro y hy
        rcases List.mem_cons.mp hy with h | h
        · rw [h]; exact hm
        · exact hpre y h
      · rintro ⟨pre, post, hb, hpre, ds, hmd⟩
        cases pre with
        | nil =>
          simp only [List.nil_append, List.cons.injEq] at hb
          obtain ⟨hxb, -⟩ := hb
          rw [← hxb] at hmd
          rw [hm] at hmd
          exact absurd hmd (by simp)
        | cons y pre2 =>
          simp only [List.cons_append, List.cons.injEq] at hb
          obtain ⟨-, hrest⟩ := hb
          exact ⟨pre2, post, hrest,
            fun z hz => hpre z (List.mem_cons.mpr (Or.inr hz)), ds, hmd⟩
    | cons d0 ds0 =>
      have hstep : pick_loop md service eid descrType (x :: rest) =
          Except.ok (x, d0) := by
        simp only [pick_loop, hm]
        rfl
      rw [hstep]
      constructor
      · intro h
        simp only [Except.ok.injEq, Prod.mk.injEq] at h
        obtain ⟨hbx, hdd⟩ := h
        refine ⟨[], rest, ?_, ?_, ds0, ?_⟩
        · rw [hbx]
          rfl
        · intro z hz
          exact absurd hz (List.not_mem_nil z)
        · rw [← hbx, hm, hdd]
      · rintro ⟨pre, post, hb, hpre, ds, hmd⟩
        cases pre with
        | nil =>
          simp only [List.nil_append, List.cons.injEq] at hb
          obtain ⟨hxb, -⟩ := hb
          rw [← hxb, hm] at hmd
          simp only [List.cons.injEq] at hmd
          obtain ⟨hd, -⟩ := hmd
          rw [← hxb, hd]
        | cons y pre2 =>
          simp only [List.cons_append, List.cons.injEq] at hb
          obtain ⟨hxy, -⟩ := hb
          have hx2 : md service eid x descrType = [] := by
            rw [hxy]
            exact hpre y (List.mem_cons.mpr (Or.inl rfl))
          rw [hx2] at hm
          exact absurd hm (by simp)

/-- When no candidate is advertised, the loop exhausts the list and raises. -/
theorem pick_loop_all_empty (md : String → String → String → String → List String)
    (service eid descrType : String) (bs : List String)
    (h : ∀ x ∈ bs, md service eid x descrType = []) :
    pick_loop md service eid descrType bs = Except.error pickErr := by
  induction bs with
  | nil => rfl
  | cons x rest ih =>
    have hm : md service eid x descrType = [] := h x (List.mem_cons.mpr (Or.inl rfl))
    simp only [pick_loop, hm]
    exact ih (fun y hy => h y (List.mem_cons.mpr (Or.inr hy)))

/-- C3: `pick_binding` walks the caller-supplied binding order and succeeds
with (b, d) exactly when b is the first binding the peer's metadata advertises
for the role, d being the first advertised destination — first match wins
with no scoring or merging; with preference [POST, REDIRECT] and both
advertised it picks POST, with preference [REDIRECT, POST] and only POST
advertised it picks POST; and when nothing is advertised it raises instead of
returning. -/
theorem pick_binding_first_match :
    (∀ (md : String → String → String → String → List String)
        (bindings : List String) (service descrType eid b d : String),
        pick_binding md bindings service descrType none eid = Except.ok (b, d) ↔
          ∃ pre post, bindings = pre ++ b :: post ∧
            (∀ x ∈ pre, md service eid x descrType = []) ∧
            ∃ ds, md service eid b descrType = d :: ds) ∧
    (∀ (md : String → String → String → String → List String)
        (bindings : List String) (service descrType eid : String),
        (∀ x ∈ bindings, md service eid x descrType = []) →
        pick_binding md bindings service descrType none eid = Except.error pickErr) ∧
    (pick_binding mdBoth [BINDING_HTTP_POST, BINDING_HTTP_REDIRECT]
        "single_logout_service" "" none "https://peer.example/entity" =
      Except.ok (BINDING_HTTP_POST, "https://peer.example/slo-post")) ∧
    (pick_binding mdPostOnly [BINDING_HTTP_REDIRECT, BINDING_HTTP_POST]
        "single_logout_service" "" none "https://peer.example/entity" =
      Except.ok (BINDING_HTTP_POST, "https://peer.example/slo-post")) := by
  refine ⟨?_, ?_, rfl, rfl⟩
  · intro md bindings service descrType eid b d
    exact pick_loop_ok_iff md service eid descrType b d bindings
  · intro md bindings service descrType eid h
    exact pick_loop_all_empty md service eid descrType bindings h

/-- Witness: with a peer advertising nothing, `pick_binding` raises, by the
C3 theorem applied at concrete metadata and bindings. -/
theorem pick_binding_first_match_witness :
    pick_binding mdNone [BINDING_SOAP] "single_logout_service" "" none
        "https://peer.example/entity" =
      Except.error pickErr :=
  pick_binding_first_match.2.1 mdNone [BINDING_SOAP] "single_logout_service" ""
    "https://peer.example/entity" (fun x _ => rfl)

/-- The length of a generated identifier is the seed length plus three plus
the entropy draw. -/
theorem sid_length (s : String) (n : Nat) : (sid s n).length = s.length + 3 + n := by
  unfold sid
  rw [String.length_append, String.length_append]
  have h1 : ("id-" : String).length = 3 := rfl
  have h2 : (String.mk (List.replicate n 'r')).length = n := by
    show (List.replicate n 'r').length = n
    exact List.length_replicate n 'r'
  rw [h1, h2]

/-- C7 counterexample: for an entity whose per-entity seed is "seedA",
`_status_response` generates the id `sid "" 7` — the bare `sid()` call of
line 234 with the generator's default empty seed — which differs from the id
the entity's own seed would produce and coincides with the id generated for a
different entity with seed "seedB", so the identifier is not derived from the
entity's per-entity random seed. -/
theorem status_response_id_ignores_seed :
    (_status_response "seedA" 7 "2026-01-01T00:00:00Z" none none false rinfo1).id =
      sid "" 7 ∧
    sid "" 7 ≠ sid "seedA" 7 ∧
    (_status_response "seedA" 7 "2026-01-01T00:00:00Z" none none false rinfo1).id =
      (_status_response "seedB" 7 "2026-01-01T00:00:00Z" none none false rinfo1).id :=
  ⟨rfl, by decide, rfl⟩

/-- C7 as amended: a request built by `_message` with no explicit id does get
its identifier from `sid(self.seed)` — the entity's per-entity seed plus a
fresh draw — but a status response built by `_status_response` gets its
identifier from a bare `sid()` with the default empty seed, identically for
every entity whatever its seed; distinct entropy draws yield distinct
identifiers from a given seed. -/
theorem message_id_seed_usage :
    (∀ (cfg : Config) (seed : String) (entropy : Nat) (now : String)
        (dest consent ext : Option String) (sign : Bool)
        (ni rsn nooa : Option String),
        (_message cfg seed entropy now dest none consent ext sign ni rsn nooa).id =
          sid seed entropy) ∧
    (∀ (seed : String) (entropy : Nat) (now : String) (issuer status : Option String)
        (sign : Bool) (kwargs : RespArgs),
        (_status_response seed entropy now issuer status sign kwargs).id =
          sid "" entropy) ∧
    (∀ (s : String) (n m : Nat), n ≠ m → sid s n ≠ sid s m) := by
  refine ⟨?_, ?_, ?_⟩
  · intro cfg seed entropy now dest consent ext sign ni rsn nooa
    cases sign <;> rfl
  · intro seed entropy now issuer status sign kwargs
    cases sign <;> rfl
  · intro s n m hne heq
    apply hne
    have hl := congrArg String.length heq
    rw [sid_length, sid_length] at hl
    omega

/-- Witness: two distinct entropy draws give distinct identifiers, by the C7
theorem applied at a concrete seed and draws. -/
theorem message_id_seed_usage_witness : sid "x" 1 ≠ sid "x" 2 :=
  message_id_seed_usage.2.2 "x" 1 2 (by decide)

/-- When the base64 and inflate collaborators never raise, the decode step of
`_parse_response` never raises, whatever the binding. -/
theorem decodeStep_noRaise (c : RespCollab)
    (hb : ∀ s, ∃ v, c.b64decode s = Except.ok v)
    (hi : ∀ s, ∃ v, c.inflate s = Except.ok v)
    (binding x : String) : ∃ v, decodeStep c binding x = Except.ok v := by
  unfold decodeStep
  by_cases h1 : (binding == BINDING_HTTP_REDIRECT) = true
  · rw [if_pos h1]
    unfold decode_base64_and_inflate
    obtain ⟨v1, hv1⟩ := hb x
    rw [hv1]
    exact hi v1
  · rw [if_neg h1]
    by_cases h2 : (binding == BINDING_HTTP_POST) = true
    · rw [if_pos h2]
      exact hb x
    · rw [if_neg h2]
      exact ⟨x, rfl⟩

/-- C1 counterexample: a verification problem — `verify` rejecting the
message — makes `parse_logout_request_response` return a bare None
(`Except.ok none`), not a Rejected outcome carrying a reason. -/
theorem verify_rejection_yields_bare_none :
    parse_logout_request_response verifyRejectsCollab cfgSlo BINDING_HTTP_POST
        "PHNhbWxwLz4=" =
      Except.ok none :=
  rfl

/-- C1 as amended: the entry points soft-fail to a bare None, not to a
Rejected-with-reason outcome — return-address lookup failures,
response-construction failures, and `loads`/`verify` rejections all resolve
to `None` (any reason is only logged), and when every collaborator step
returns rather than raises, no exception escapes either entry point; the
decode, `loads` and `verify` steps are however unguarded, so an exception
they raise does propagate. -/
theorem logout_entry_points_soft_fail_to_none :
    (∀ c : RespCollab, respNoRaise c → ∀ (cfg : Config) (binding x : String),
        ∃ o, parse_logout_request_response c cfg binding x = Except.ok o) ∧
    (∀ c : ReqCollab, reqNoRaise c → ∀ (cfg : Config) (et binding x : String),
        ∃ o, parse_logout_request c cfg et binding x = Except.ok o) ∧
    (∀ (c : RespCollab) (cfg : Config) (service binding a x : String) (e : PyErr),
        pyTruthy x = true → c.mkResponse (some a) = Except.error e →
        _parse_response c cfg service binding (some a) x = Except.ok none) := by
  refine ⟨?_, ?_, ?_⟩
  · intro c hc cfg binding x
    obtain ⟨hb, hi, hm, hl, hv⟩ := hc
    unfold parse_logout_request_response
    by_cases hx : pyTruthy x = true
    · cases he : cfg.endpoint "single_logout_service" binding none with
      | nil =>
        exact ⟨none, by
          unfold _parse_response
          rw [if_pos hx, he]
          simp only [post_truthy, Bool.or_true, if_true]⟩
      | cons a rest =>
        obtain ⟨obj, hobj⟩ := hm (some a)
        obtain ⟨dec, hdec⟩ := decodeStep_noRaise c hb hi binding x
        obtain ⟨lv, hlv⟩ := hl obj dec
        cases lv with
        | none =>
          exact ⟨none, by
            unfold _parse_response
            rw [if_pos hx, he]
            simp only [post_truthy, Bool.or_true, if_true, hobj, hdec, hlv]⟩
        | some r =>
          obtain ⟨vv, hvv⟩ := hv r
          cases vv with
          | none =>
            exact ⟨none, by
              unfold _parse_response
              rw [if_pos hx, he]
              simp only [post_truthy, Bool.or_true, if_true, hobj, hdec, hlv, hvv]⟩
          | some r2 =>
            exact ⟨some r2, by
              unfold _parse_response
              rw [if_pos hx, he]
              simp only [post_truthy, Bool.or_true, if_true, hobj, hdec, hlv, hvv]⟩
    · exact ⟨none, by unfold _parse_response; rw [if_neg hx]⟩
  · intro c hc cfg et binding x
    obtain ⟨hsp, hmk, hl, hv⟩ := hc
    unfold parse_logout_request
    obtain ⟨ro, hro⟩ :=
      hmk (cfg.endpoint "single_logout_service" binding (some et)) (timeslackOf cfg)
    cases hbs : binding == BINDING_SOAP with
    | true =>
      obtain ⟨sx, hsx⟩ := hsp "logout_request" x
      obtain ⟨lv, hlv⟩ := hl ro sx binding
      cases lv with
      | none =>
        exact ⟨none, by
          unfold _parse_request
          simp only [hro, hbs, if_true, hsx, hlv]⟩
      | some r =>
        obtain ⟨vv, hvv⟩ := hv r
        cases vv with
        | none =>
          exact ⟨none, by
            unfold _parse_request
            simp only [hro, hbs, if_true, hsx, hlv, hvv]⟩
        | some r2 =>
          exact ⟨some r2, by
            unfold _parse_request
            simp only [hro, hbs, if_true, hsx, hlv, hvv]⟩
    | false =>
      obtain ⟨lv, hlv⟩ := hl ro x binding
      cases lv with
      | none =>
        exact ⟨none, by
          unfold _parse_request
          simp only [hro, hbs, Bool.false_eq_true, if_false, hlv]⟩
      | some r =>
        obtain ⟨vv, hvv⟩ := hv r
        cases vv with
        | none =>
          exact ⟨none, by
            unfold _parse_request
            simp only [hro, hbs, Bool.false_eq_true, if_false, hlv, hvv]⟩
        | some r2 =>
          exact ⟨some r2, by
            unfold _parse_request
            simp only [hro, hbs, Bool.false_eq_true, if_false, hlv, hvv]⟩
  · intro c cfg service binding a x e hx hm
    unfold _parse_response
    rw [if_pos hx]
    simp only [hm]

/-- Witness: with benign collaborators, the logout-response entry point
returns an ok outcome, by the C1 theorem applied at concrete collaborators. -/
theorem logout_entry_points_soft_fail_witness :
    ∃ o, parse_logout_request_response okCollab cfgSlo BINDING_SOAP "<samlp/>" =
      Except.ok o :=
  logout_entry_points_soft_fail_to_none.1 okCollab
    ⟨fun s => ⟨s, rfl⟩, fun s => ⟨s, rfl⟩,
     fun ra => ⟨match ra with
       | some a => "return-addr=" ++ a
       | none => "return-addr-missing", rfl⟩,
     fun o x => ⟨some (o ++ "|" ++ x), rfl⟩, fun r => ⟨some r, rfl⟩⟩
    cfgSlo BINDING_SOAP "<samlp/>"

/-- C2 counterexample: a payload that is not valid base64, received over
HTTP-POST, makes the base64 decoder raise and the exception escapes
`_parse_response` — the call crashes instead of rejecting. -/
theorem bad_base64_escapes_parse_response :
    _parse_response badB64Collab cfgSlo "single_logout_service" BINDING_HTTP_POST none
        "not-base64-%%%" =
      Except.error ⟨"binascii Error: Invalid base64-encoded string"⟩ :=
  rfl

/-- C2 as amended: a failure of the decode step of `_parse_response` (bad
base64 for HTTP-POST or HTTP-Redirect, inflate error for HTTP-Redirect)
aborts processing of that inbound message by propagating the decode exception
out of the call — the decode block has no exception handler, so the failure
is a crash of the call, not a caught rejection. -/
theorem decode_failure_propagates (c : RespCollab) (cfg : Config)
    (service binding a x obj : String) (e : PyErr)
    (hx : pyTruthy x = true) (hm : c.mkResponse (some a) = Except.ok obj)
    (hd : decodeStep c binding x = Except.error e) :
    _parse_response c cfg service binding (some a) x = Except.error e := by
  unfold _parse_response
  rw [if_pos hx]
  simp only [hm, hd]

/-- Witness: the decode-propagation theorem applied at the concrete
collaborator whose base64 decoder raises, over HTTP-Redirect. -/
theorem decode_failure_propagates_witness :
    _parse_response badB64Collab cfgSlo "single_logout_service" BINDING_HTTP_REDIRECT
        (some "https://me.example/slo") "junk" =
      Except.error ⟨"binascii Error: Invalid base64-encoded string"⟩ :=
  decode_failure_propagates badB64Collab cfgSlo "single_logout_service"
    BINDING_HTTP_REDIRECT "https://me.example/slo" "junk" "resp-obj"
    ⟨"binascii Error: Invalid base64-encoded string"⟩ (by decide) rfl rfl

end PySaml2
